import Mathlib

/-!
Shallow embedding of the BLE central-role session manager
(`src/handler.rs`, `src/commands.rs`, `src/models.rs`, `src/error.rs`).

Conventions of the embedding:
* A `Peripheral` handle is its adapter id (`pid`, modelling `PeripheralId`)
  together with its formatted address string (`fmt_addr(address())`).
* The adapter's ground truth about which peripherals are hardware-connected
  (`Peripheral::is_connected`) lives in `Handler.hwConnected`.
* The tokio `watch` channel `connected_tx`/`connected_rx` is modelled by the
  boolean `Handler.connectedFlag`; `borrow`/`borrow_and_update` read it.
* Side effects (hardware requests, channel sends, task aborts, callback
  invocations) are recorded in an ordered trace of `Effect`s.
* An `await` on `connected_rx.changed()` is resolved by a `waitResult`
  parameter: the value the concurrent event-dispatcher task wrote to the watch
  channel when the await resumed.
* Rust `panic!`/`assert!`/`expect` failures are the `Outcome.panicked` result.
* Fallible hardware primitives whose result a claim depends on are passed in
  as an explicit parameter (e.g. `hwResult` for `Peripheral::subscribe`).
-/

namespace Blec

/-- A peripheral handle: adapter id plus formatted MAC address
(`btleplug::platform::Peripheral`, as used by `handler.rs`). -/
structure Peripheral where
  pid : Nat
  addr : String
deriving Repr, DecidableEq

/-- Device snapshot (`models.rs`, `BleDevice`); the `services` list is not
needed by any modelled operation and is omitted. Ordering and equality of
`BleDevice` in the source compare only `address` (`impl Ord for BleDevice`). -/
structure BleDevice where
  address : String
  name : String
  is_connected : Bool
deriving Repr, DecidableEq

/-- A GATT characteristic; only its uuid is consulted by the modelled
operations (`HandlerState::get_charac` matches on `c.uuid`). -/
structure Characteristic where
  uuid : Nat
deriving Repr, DecidableEq

/-- An entry of `notify_listeners` (`handler.rs`, `struct Listener`); the
opaque callback closure is modelled by an identifier. -/
structure Listener where
  uuid : Nat
  callback : Nat
deriving Repr, DecidableEq

/-- The error taxonomy of `error.rs` restricted to the variants reachable from
the modelled operations. `Btleplug` wraps a transport error (its payload is an
opaque code). `ConnectionFailed` and `DisconnectFailed` are produced by
`handler.rs`. -/
inductive Error where
  | AlreadyConnected
  | UnknownPeripheral (address : String)
  | NoDeviceConnected
  | ConnectionFailed
  | DisconnectFailed
  | CharacNotAvailable (uuid : Nat)
  | Btleplug (code : Nat)
deriving Repr, DecidableEq

/-- Result of running a Rust function that may return `Ok`, return `Err`, or
panic (via `assert!`/`expect`). -/
inductive Outcome (α : Type) where
  | ok (a : α)
  | err (e : Error)
  | panicked (msg : String)
deriving Repr, DecidableEq

/-- `true` iff the outcome is an `Err` return. -/
def Outcome.isErr {α : Type} : Outcome α → Bool
  | .err _ => true
  | _ => false

/-- Observable side effects, in program order. -/
inductive Effect where
  | hwConnect (pid : Nat)
  | hwDisconnect (pid : Nat)
  | hwSubscribe (uuid : Nat)
  | sendConnUpdate (b : Bool)
  | sendConnectedTx (b : Bool)
  | abortListen (handle : Nat)
  | invokeDisconnectCb (callback : Nat)
deriving Repr, DecidableEq

/-- The adapter events consumed by `Handler::handle_event`
(`btleplug::api::CentralEvent`, other variants collapsed into `other`). -/
inductive CentralEvent where
  | DeviceDisconnected (pid : Nat)
  | DeviceConnected (pid : Nat)
  | other
deriving Repr, DecidableEq

/-- `struct HandlerState` of `handler.rs`. Channel senders are modelled by
their presence (a send to a present channel appears in the effect trace);
task handles by opaque ids. -/
structure HandlerState where
  connected : Option Peripheral
  characs : List Characteristic
  listenHandle : Option Nat
  onDisconnect : Option Nat
  connectionUpdateChannel : Bool
  scanUpdateChannel : Bool
  scanTask : Option Nat
deriving Repr, DecidableEq

/-- `struct Handler` of `handler.rs`, together with the adapter-side ground
truth `hwConnected` (the set of peripheral ids that are hardware-connected,
i.e. for which `Peripheral::is_connected` answers true). `connectedFlag` is
the current value of the `watch` channel `connected_tx`/`connected_rx`;
`listeners` is `notify_listeners`; `devices` the address-keyed registry. -/
structure Handler where
  devices : List (String × Peripheral)
  listeners : List Listener
  connectedFlag : Bool
  hwConnected : List Nat
  st : HandlerState
deriving Repr, DecidableEq

/-- `HashMap::get` on the device registry. -/
def registryGet (m : List (String × Peripheral)) (k : String) : Option Peripheral :=
  (m.find? (fun kv => kv.1 == k)).map Prod.snd

/-- `HashMap::insert` on the device registry (replaces an existing binding). -/
def registryInsert (m : List (String × Peripheral)) (k : String) (v : Peripheral) :
    List (String × Peripheral) :=
  (k, v) :: m.filter (fun kv => !(kv.1 == k))

/-- `HandlerState::get_charac`: find the cached characteristic with the given
uuid, else `CharacNotAvailable`. The `Option` result stands for the source's
`Result`; callers turn `none` into the error. -/
def get_charac (characs : List Characteristic) (uuid : Nat) : Option Characteristic :=
  characs.find? (fun c => c.uuid == uuid)

/-- `Handler::is_connected`: a non-blocking read of the watch channel. -/
def is_connected (h : Handler) : Bool :=
  h.connectedFlag

/-- `Handler::set_connection_update_channel` (`handler.rs` lines 133-135):
stores the sender in `HandlerState`; nothing is sent at registration time. -/
def set_connection_update_channel (h : Handler) : Handler × List Effect :=
  ({ h with st := { h.st with connectionUpdateChannel := true } }, [])

/-- The `connection_state` tauri command (`commands.rs` lines 64-83):
registers a fresh sink via `set_connection_update_channel`, then sends the
current `is_connected()` value directly to the front-end `update` channel
(returned here as the list of booleans the command itself sends to the
front-end before returning). -/
def connection_state (h : Handler) : Handler × List Bool :=
  let r := set_connection_update_channel h
  (r.1, [is_connected r.1])

/-- Tail of `Handler::connect_device` after the peripheral was stored and the
optional hardware connect was issued: awaits `connected_rx.changed()`
(resuming with the watch value `waitResult`), returns `ConnectionFailed` when
the wait resolved to not-connected, otherwise reports `true` on the
connection-update channel when one is registered. -/
def connect_device_wait (h : Handler) (effs : List Effect) (waitResult : Bool) :
    Outcome Unit × Handler × List Effect :=
  let h2 := { h with connectedFlag := waitResult }
  if waitResult = false then
    (Outcome.err Error.ConnectionFailed, h2, effs)
  else if h2.st.connectionUpdateChannel then
    (Outcome.ok (), h2, effs ++ [Effect.sendConnUpdate true])
  else
    (Outcome.ok (), h2, effs)

/-- `Handler::connect_device` (`handler.rs` lines 190-229).
Guard order as in the source: `AlreadyConnected` when a tracked device has the
requested address; registry lookup (`UnknownPeripheral` when absent); the
looked-up handle becomes `state.connected`; when the peripheral is not
hardware-connected the source asserts `!(*connected_rx.borrow_and_update())`
and then issues `device.connect()`; finally the wait on the watch channel.
The hardware connect request itself is modelled as succeeding (a transport
error there is not relevant to any claim). -/
def connect_device (h : Handler) (address : String) (waitResult : Bool) :
    Outcome Unit × Handler × List Effect :=
  if (match h.st.connected with
      | some dev => address == dev.addr
      | none => false) then
    (Outcome.err Error.AlreadyConnected, h, [])
  else
    match registryGet h.devices address with
    | none => (Outcome.err (Error.UnknownPeripheral address), h, [])
    | some device =>
      let h1 := { h with st := { h.st with connected := some device } }
      if h1.hwConnected.contains device.pid then
        connect_device_wait h1 [] waitResult
      else if h1.connectedFlag then
        (Outcome.panicked "connected_rx is true without device being connected, this is a bug",
         h1, [])
      else
        connect_device_wait h1 [Effect.hwConnect device.pid] waitResult

/-- `Handler::disconnect` (`handler.rs` lines 237-268). With a tracked,
hardware-connected peripheral the source runs
`assert!(!(*connected_rx.borrow_and_update()), "connected_rx is false with a
device being connected, this is a bug")`, which panics exactly when the watch
channel currently reads `true`; otherwise it issues the hardware disconnect
and awaits the watch channel (`waitResult` is the value after the await),
returning `DisconnectFailed` when it still reads connected. -/
def disconnect (h : Handler) (waitResult : Bool) :
    Outcome Unit × Handler × List Effect :=
  match h.st.connected with
  | none => (Outcome.err Error.NoDeviceConnected, h, [])
  | some dev =>
    if h.hwConnected.contains dev.pid then
      if h.connectedFlag then
        (Outcome.panicked "connected_rx is false with a device being connected, this is a bug",
         h, [])
      else
        let h2 := { h with connectedFlag := waitResult }
        if waitResult then
          (Outcome.err Error.DisconnectFailed, h2, [Effect.hwDisconnect dev.pid])
        else
          (Outcome.ok (), h2, [Effect.hwDisconnect dev.pid])
    else (Outcome.err Error.NoDeviceConnected, h, [])

/-- `Handler::handle_disconnect` (`handler.rs` lines 271-299). When the event
id matches the tracked peripheral: clears the tracked reference, aborts and
drops the listener task handle, empties `notify_listeners`, invokes the
registered `on_disconnect` callback, reports `false` on the
connection-update channel when registered, clears `characs`, and publishes
`false` on the watch channel — in that source order. Non-matching or absent
peripheral: no change. -/
def handle_disconnect (h : Handler) (peripheralId : Nat) :
    Outcome Unit × Handler × List Effect :=
  match h.st.connected with
  | some dev =>
    if dev.pid = peripheralId then
      let effsAbort := match h.st.listenHandle with
        | some hd => [Effect.abortListen hd]
        | none => []
      let effsCb := match h.st.onDisconnect with
        | some cb => [Effect.invokeDisconnectCb cb]
        | none => []
      let effsUpd := if h.st.connectionUpdateChannel then [Effect.sendConnUpdate false] else []
      let h2 := { h with
        listeners := [],
        connectedFlag := false,
        st := { h.st with connected := none, listenHandle := none, characs := [] } }
      (Outcome.ok (), h2, effsAbort ++ effsCb ++ effsUpd ++ [Effect.sendConnectedTx false])
    else (Outcome.ok (), h, [])
  | none => (Outcome.ok (), h, [])

/-- `Handler::handle_connect` (`handler.rs` lines 580-596): on a connected
event for the tracked peripheral, publishes `true` on the watch channel. -/
def handle_connect (h : Handler) (peripheralId : Nat) : Handler × List Effect :=
  match h.st.connected with
  | some dev =>
    if dev.pid = peripheralId then
      ({ h with connectedFlag := true }, [Effect.sendConnectedTx true])
    else (h, [])
  | none => (h, [])

/-- `Handler::handle_event` (`handler.rs` lines 555-568). -/
def handle_event (h : Handler) (event : CentralEvent) :
    Outcome Unit × Handler × List Effect :=
  match event with
  | CentralEvent.DeviceDisconnected pid => handle_disconnect h pid
  | CentralEvent.DeviceConnected pid =>
    let r := handle_connect h pid
    (Outcome.ok (), r.1, r.2)
  | CentralEvent.other => (Outcome.ok (), h, [])

/-- `Handler::subscribe` (`handler.rs` lines 517-531): requires a tracked
device and a cached characteristic; issues the peripheral's subscribe
primitive (its result is the `hwResult` parameter: `none` = success, `some
code` = a transport error that `?` propagates as `Error::Btleplug`); a
`Listener` is pushed onto `notify_listeners` only after the primitive
succeeded. -/
def subscribe (h : Handler) (c : Nat) (callback : Nat) (hwResult : Option Nat) :
    Outcome Unit × Handler × List Effect :=
  match h.st.connected with
  | none => (Outcome.err Error.NoDeviceConnected, h, [])
  | some _dev =>
    match get_charac h.st.characs c with
    | none => (Outcome.err (Error.CharacNotAvailable c), h, [])
    | some charac =>
      match hwResult with
      | some code => (Outcome.err (Error.Btleplug code), h, [Effect.hwSubscribe charac.uuid])
      | none =>
        (Outcome.ok (),
         { h with listeners := h.listeners ++ [⟨charac.uuid, callback⟩] },
         [Effect.hwSubscribe charac.uuid])

/-- The ordering `impl Ord for BleDevice` (`models.rs` lines 36-40): devices
compare by `address` only. -/
def devLe (a b : BleDevice) : Prop :=
  a.address ≤ b.address

instance : DecidableRel devLe := fun a b =>
  inferInstanceAs (Decidable (a.address ≤ b.address))

instance : IsTotal BleDevice devLe :=
  ⟨fun a b => le_total a.address b.address⟩

instance : IsTrans BleDevice devLe :=
  ⟨fun _ _ _ hab hbc => le_trans hab hbc⟩

/-- The loop body of `Handler::add_devices` (`handler.rs` lines 440-451): for
each discovered peripheral, attempt the `BleDevice::from_peripheral`
conversion (its outcome is supplied alongside the peripheral: `some dev` on
`Ok`, `none` on `Err`, in which case the peripheral is logged and skipped);
on success insert the handle into the registry under the device's address and
push the device. Returns the updated registry and the pushed devices in
discovery order. -/
def add_devices_loop (reg : List (String × Peripheral)) :
    List (Peripheral × Option BleDevice) → List (String × Peripheral) × List BleDevice
  | [] => (reg, [])
  | (p, conv) :: rest =>
    match conv with
    | some dev =>
      let r := add_devices_loop (registryInsert reg dev.address p) rest
      (r.1, dev :: r.2)
    | none => add_devices_loop reg rest

/-- `Handler::add_devices` (`handler.rs` lines 436-454): run the conversion
loop, then `devices.sort()` — a stable sort under `impl Ord for BleDevice`,
i.e. ascending by address. -/
def add_devices (reg : List (String × Peripheral))
    (discovered : List (Peripheral × Option BleDevice)) :
    List (String × Peripheral) × List BleDevice :=
  let r := add_devices_loop reg discovered
  (r.1, List.insertionSort devLe r.2)

/-- `let loops = timeout / 200;` (`handler.rs` line 351): the number of
polling ticks of the scan loop, computed with truncating integer division. -/
def scanLoops (timeout : Nat) : Nat :=
  timeout / 200

/-- The `for _ in 0..loops` body of the scan task (`handler.rs` lines
353-367), iterated with an explicit tick index. Each tick sleeps 200 ms and
asks the adapter for its peripheral set: tick `i` observes `oracle i` (each
peripheral paired with its conversion outcome). The tick's batch is pushed to
the result sink only when non-empty. Returns (number of adapter polls
executed, pushed batches in order, final registry). -/
def runScanLoop (oracle : Nat → List (Peripheral × Option BleDevice)) :
    Nat → Nat → List (String × Peripheral) →
    Nat × List (List BleDevice) × List (String × Peripheral)
  | _, 0, reg => (0, [], reg)
  | i, n + 1, reg =>
    let r := add_devices reg (oracle i)
    let rest := runScanLoop oracle (i + 1) n r.1
    (rest.1 + 1, (if r.2.isEmpty then rest.2.1 else r.2 :: rest.2.1), rest.2.2)

/-- The background task spawned by `Handler::discover` (`handler.rs` lines
349-372): clears the registry, then runs `timeout / 200` polling ticks. -/
def scan_task (timeout : Nat) (oracle : Nat → List (Peripheral × Option BleDevice)) :
    Nat × List (List BleDevice) × List (String × Peripheral) :=
  runScanLoop oracle 0 (scanLoops timeout) []

/-- A UTF-8 continuation byte (`0x80..=0xBF`). -/
def utf8Cont (b : Nat) : Bool :=
  0x80 ≤ b && b ≤ 0xBF

/-- States of the UTF-8 validation automaton: `start` between code points,
`tailN` expecting `N` more continuation bytes, and the four states after a
lead byte whose first continuation byte has a restricted range (`0xE0`,
`0xED`, `0xF0`, `0xF4`), which rule out overlong encodings, surrogates and
code points above U+10FFFF. -/
inductive Utf8State where
  | start | tail1 | tail2 | tail3 | afterE0 | afterED | afterF0 | afterF4
deriving Repr, DecidableEq

/-- One step of the UTF-8 validation automaton (RFC 3629); `none` means the
byte is not acceptable in the current state. -/
def utf8Step (s : Utf8State) (b : Nat) : Option Utf8State :=
  match s with
  | .start =>
    if b ≤ 0x7F then some .start
    else if 0xC2 ≤ b && b ≤ 0xDF then some .tail1
    else if b = 0xE0 then some .afterE0
    else if b = 0xED then some .afterED
    else if (0xE1 ≤ b && b ≤ 0xEC) || b = 0xEE || b = 0xEF then some .tail2
    else if b = 0xF0 then some .afterF0
    else if 0xF1 ≤ b && b ≤ 0xF3 then some .tail3
    else if b = 0xF4 then some .afterF4
    else none
  | .tail1 => if utf8Cont b then some .start else none
  | .tail2 => if utf8Cont b then some .tail1 else none
  | .tail3 => if utf8Cont b then some .tail2 else none
  | .afterE0 => if 0xA0 ≤ b && b ≤ 0xBF then some .tail1 else none
  | .afterED => if 0x80 ≤ b && b ≤ 0x9F then some .tail1 else none
  | .afterF0 => if 0x90 ≤ b && b ≤ 0xBF then some .tail2 else none
  | .afterF4 => if 0x80 ≤ b && b ≤ 0x8F then some .tail2 else none

/-- Run the automaton; a sequence is accepted when it ends between code
points. -/
def utf8Run (s : Utf8State) : List Nat → Bool
  | [] => s == Utf8State.start
  | b :: rest =>
    match utf8Step s b with
    | some s2 => utf8Run s2 rest
    | none => false

/-- Validity of a byte sequence as UTF-8, as checked by Rust's
`String::from_utf8` (RFC 3629: 1-4 byte sequences, no overlong encodings, no
surrogates, no code points above U+10FFFF). Modelled from the documented
behavior of the external standard library. -/
def utf8Valid (l : List Nat) : Bool :=
  utf8Run Utf8State.start l

/-- The string-decoding step of the `recv_string` command (`commands.rs` lines
139-146): `String::from_utf8(data).expect("failed to convert data to
string")`. A Rust `String` is identified with its byte contents; on invalid
UTF-8 the `expect` panics. -/
def recv_string (bytes : List Nat) : Outcome (List Nat) :=
  if utf8Valid bytes then Outcome.ok bytes
  else Outcome.panicked "failed to convert data to string"

/-- The per-notification decoding step of the `subscribe_string` command
(`commands.rs` lines 186-193): `String::from_utf8(data).expect("failed to
convert data to string")` inside the forwarding loop. -/
def subscribe_string_decode (bytes : List Nat) : Outcome (List Nat) :=
  if utf8Valid bytes then Outcome.ok bytes
  else Outcome.panicked "failed to convert data to string"

/-! Concrete fixtures used to evaluate the model on explicit inputs. -/

/-- A peripheral with adapter id 1. -/
def devA : Peripheral := ⟨1, "AA:AA:AA:AA:AA:AA"⟩

/-- A second peripheral with adapter id 2. -/
def devB : Peripheral := ⟨2, "BB:BB:BB:BB:BB:BB"⟩

/-- Device snapshot of `devA`. -/
def snapA : BleDevice := ⟨"AA:AA:AA:AA:AA:AA", "alpha", false⟩

/-- Device snapshot of `devB`. -/
def snapB : BleDevice := ⟨"BB:BB:BB:BB:BB:BB", "beta", false⟩

/-- The freshly initialised `HandlerState` (`Handler::new`). -/
def baseState : HandlerState :=
  { connected := none, characs := [], listenHandle := none, onDisconnect := none,
    connectionUpdateChannel := false, scanUpdateChannel := false, scanTask := none }

/-- The freshly initialised handler (`Handler::new`): empty registry, no
listeners, watch channel at `false`, nothing hardware-connected. -/
def freshHandler : Handler :=
  { devices := [], listeners := [], connectedFlag := false, hwConnected := [], st := baseState }

/-- A handler right after a scan found `devB`: the registry holds `devB`,
nothing is tracked or hardware-connected, the watch channel reads `false`. -/
def scannedHandler : Handler :=
  { devices := [("BB:BB:BB:BB:BB:BB", devB)], listeners := [], connectedFlag := false,
    hwConnected := [], st := baseState }

/-- A handler in the adapter-confirmed connected state the spec's invariant
describes: `devA` is tracked and hardware-connected, the watch channel reads
`true`, a listener task is running, and `devB` is in the registry. -/
def connectedHandler : Handler :=
  { devices := [("BB:BB:BB:BB:BB:BB", devB)],
    listeners := [⟨77, 5⟩],
    connectedFlag := true,
    hwConnected := [1],
    st := { baseState with
      connected := some devA,
      characs := [⟨77⟩],
      listenHandle := some 7,
      onDisconnect := some 3,
      connectionUpdateChannel := true } }

/-! Helper lemmas shared by the claim theorems. -/

/-- The conversion loop of `add_devices` collects exactly the successful
conversions, in discovery order. -/
theorem add_devices_loop_snd :
    ∀ (l : List (Peripheral × Option BleDevice)) (reg : List (String × Peripheral)),
      (add_devices_loop reg l).2 = l.filterMap Prod.snd
  | [], _ => rfl
  | (p, some dev) :: rest, reg => by
    simp [add_devices_loop, add_devices_loop_snd rest]
  | (p, none) :: rest, reg => by
    simp [add_devices_loop, add_devices_loop_snd rest]

/-- The scan loop performs one adapter poll per iteration, independently of
what the oracle returns. -/
theorem runScanLoop_polls (oracle : Nat → List (Peripheral × Option BleDevice)) :
    ∀ (n i : Nat) (reg : List (String × Peripheral)),
      (runScanLoop oracle i n reg).1 = n
  | 0, _, _ => rfl
  | n + 1, i, reg => by
    simp [runScanLoop, runScanLoop_polls oracle n]

/-- Every batch the scan loop pushes to the result sink is non-empty. -/
theorem runScanLoop_pushes_nonempty (oracle : Nat → List (Peripheral × Option BleDevice)) :
    ∀ (n i : Nat) (reg : List (String × Peripheral)) (b : List BleDevice),
      b ∈ (runScanLoop oracle i n reg).2.1 → b ≠ []
  | 0, _, _, b => by
    intro hb
    simp [runScanLoop] at hb
  | n + 1, i, reg, b => by
    intro hb
    simp only [runScanLoop] at hb
    split at hb
    · exact runScanLoop_pushes_nonempty oracle n _ _ b hb
    · rename_i hne
      rcases List.mem_cons.mp hb with hhead | htail
      · subst hhead
        simpa [List.isEmpty_iff] using hne
      · exact runScanLoop_pushes_nonempty oracle n _ _ b htail

/-! Claim theorems. -/

/-- C1: in the adapter-confirmed connected state (tracked peripheral present,
`is_connected()` true, device hardware-connected, watch channel reading
`true`) the claim says `disconnect()`'s internal assertion holds and the
hardware disconnect proceeds. The code instead panics there: its assertion
`assert!(!(*connected_rx.borrow_and_update()), "connected_rx is false with a
device being connected, this is a bug")` demands the watch channel read
`false`, the opposite of what its own message (and the spec's invariant)
describes, so no disconnect request is ever issued. -/
theorem c1_disconnect_panics_in_connected_state :
    connectedHandler.st.connected = some devA ∧
    is_connected connectedHandler = true ∧
    connectedHandler.hwConnected.contains devA.pid = true ∧
    disconnect connectedHandler false =
      (Outcome.panicked "connected_rx is false with a device being connected, this is a bug",
       connectedHandler, []) :=
  ⟨rfl, rfl, rfl, rfl⟩

/-- C2 (counterexample): the claim says every `discover` performs exactly
`ceil(timeout_ms / 200)` polling ticks. With `timeout_ms = 100` the code's
`let loops = timeout / 200` truncates to 0 ticks, while
`ceil(100 / 200) = (100 + 200 - 1) / 200 = 1`. -/
theorem c2_counterexample :
    (scan_task 100 (fun _ => [])).1 = 0 ∧ (100 + 200 - 1) / 200 = 1 :=
  ⟨rfl, rfl⟩

/-- C2 (amended): the scan loop performs exactly `timeout_ms / 200` (floor)
polling ticks, regardless of what the adapter reports at each tick; for
`timeout_ms = 1000` that is exactly 5 ticks. -/
theorem c2_scan_polls_floor_div (timeout : Nat)
    (oracle : Nat → List (Peripheral × Option BleDevice)) :
    (scan_task timeout oracle).1 = timeout / 200 ∧ scanLoops 1000 = 5 :=
  ⟨runScanLoop_polls oracle (scanLoops timeout) 0 [], rfl⟩

/-- C5: calling `connect` for the address of the currently tracked connected
device returns `AlreadyConnected` immediately, with the handler unchanged and
no hardware effect issued. -/
theorem c5_already_connected_guard (h : Handler) (dev : Peripheral)
    (address : String) (w : Bool)
    (hc : h.st.connected = some dev) (ha : address = dev.addr) :
    connect_device h address w = (Outcome.err Error.AlreadyConnected, h, []) := by
  simp [connect_device, hc, ha]

/-- C5 witness: the guard fires on the concrete connected handler. -/
theorem c5_already_connected_guard_witness :
    connect_device connectedHandler "AA:AA:AA:AA:AA:AA" false =
      (Outcome.err Error.AlreadyConnected, connectedHandler, []) :=
  c5_already_connected_guard connectedHandler devA "AA:AA:AA:AA:AA:AA" false rfl rfl

/-- C7: when the requested address is not in the device registry at lookup
time (and no tracked device short-circuits the lookup with
`AlreadyConnected`), `connect_device` returns `UnknownPeripheral` carrying
that address, with the handler unchanged and no hardware effect issued. -/
theorem c7_unknown_peripheral (h : Handler) (address : String) (w : Bool)
    (hguard : ∀ dev, h.st.connected = some dev → address ≠ dev.addr)
    (hlook : registryGet h.devices address = none) :
    connect_device h address w =
      (Outcome.err (Error.UnknownPeripheral address), h, []) := by
  unfold connect_device
  cases hC : h.st.connected with
  | none => simp [hlook]
  | some dev =>
    have hbeq : (address == dev.addr) = false :=
      beq_eq_false_iff_ne.mpr (hguard dev hC)
    simp [hbeq, hlook]

/-- C7 witness: connecting on a fresh handler with an empty registry. -/
theorem c7_unknown_peripheral_witness :
    connect_device freshHandler "AA:AA:AA:AA:AA:AA" false =
      (Outcome.err (Error.UnknownPeripheral "AA:AA:AA:AA:AA:AA"), freshHandler, []) :=
  c7_unknown_peripheral freshHandler "AA:AA:AA:AA:AA:AA" false
    (fun dev hd => by simp [freshHandler, baseState] at hd) rfl

/-- C8 (counterexample): the claim says the string-encoded receive variants
return an error to the caller on invalid UTF-8. On the invalid byte sequence
`[0xFF]` both `recv_string` and `subscribe_string`'s per-notification
decoding panic through `expect` instead: no string is delivered, but no
error is returned either. -/
theorem c8_counterexample :
    utf8Valid [255] = false ∧
    recv_string [255] = Outcome.panicked "failed to convert data to string" ∧
    (recv_string [255]).isErr = false ∧
    subscribe_string_decode [255] = Outcome.panicked "failed to convert data to string" ∧
    (subscribe_string_decode [255]).isErr = false := by
  have h : utf8Valid [255] = false := by decide
  refine ⟨h, ?_, ?_, ?_, ?_⟩ <;> simp [recv_string, subscribe_string_decode, h, Outcome.isErr]

/-- C8 (amended): for every byte sequence that is not valid UTF-8, the
string-encoded receive variants panic (via `String::from_utf8(..).expect`)
with the message "failed to convert data to string"; they deliver no string,
but they do not return an error value to the caller either. -/
theorem c8_invalid_utf8_panics (bytes : List Nat) (hinv : utf8Valid bytes = false) :
    recv_string bytes = Outcome.panicked "failed to convert data to string" ∧
    (recv_string bytes).isErr = false ∧
    subscribe_string_decode bytes = Outcome.panicked "failed to convert data to string" ∧
    (subscribe_string_decode bytes).isErr = false := by
  refine ⟨?_, ?_, ?_, ?_⟩ <;> simp [recv_string, subscribe_string_decode, hinv, Outcome.isErr]

/-- C8 witness: the amended statement evaluated at the concrete invalid
sequence `[0xC0]` (an overlong-encoding lead byte, always invalid). -/
theorem c8_invalid_utf8_panics_witness :
    recv_string [192] = Outcome.panicked "failed to convert data to string" ∧
    (recv_string [192]).isErr = false ∧
    subscribe_string_decode [192] = Outcome.panicked "failed to convert data to string" ∧
    (subscribe_string_decode [192]).isErr = false :=
  c8_invalid_utf8_panics [192] (by decide)

/-- C3 (counterexample): with `devA` tracked and hardware-connected and the
watch channel reading `true`, `connect_device` for `devB`'s address neither
returns an error nor disconnects `devA` first: it makes `devB` the tracked
connected peripheral while `devA` is still hardware-connected, issues no
hardware disconnect (the effect trace is empty), and then panics on the
connection-state assertion. -/
theorem c3_counterexample :
    (connect_device connectedHandler "BB:BB:BB:BB:BB:BB" false).1 =
      Outcome.panicked "connected_rx is true without device being connected, this is a bug" ∧
    (connect_device connectedHandler "BB:BB:BB:BB:BB:BB" false).1.isErr = false ∧
    (connect_device connectedHandler "BB:BB:BB:BB:BB:BB" false).2.1.st.connected = some devB ∧
    (connect_device connectedHandler "BB:BB:BB:BB:BB:BB" false).2.1.hwConnected = [devA.pid] ∧
    (connect_device connectedHandler "BB:BB:BB:BB:BB:BB" false).2.2 = [] :=
  ⟨rfl, rfl, rfl, rfl, rfl⟩

/-- C3 (amended): `connect_device` for a second address while a different
device is tracked never disconnects the previously connected peripheral.
It overwrites the tracked handle with the new address's peripheral first,
and then — because the watch channel reads `true` while the new peripheral
is not hardware-connected — panics on the internal assertion instead of
returning an error; the previous peripheral's hardware connection is left
untouched and no hardware effect is issued. -/
theorem c3_connect_other_overwrites_and_panics (h : Handler) (address : String)
    (w : Bool) (dev device : Peripheral)
    (hc : h.st.connected = some dev) (hne : address ≠ dev.addr)
    (hlook : registryGet h.devices address = some device)
    (hnotHw : h.hwConnected.contains device.pid = false)
    (hflag : h.connectedFlag = true) :
    connect_device h address w =
      (Outcome.panicked "connected_rx is true without device being connected, this is a bug",
       { h with st := { h.st with connected := some device } }, []) := by
  have hbeq : (address == dev.addr) = false := beq_eq_false_iff_ne.mpr hne
  have hmem : device.pid ∉ h.hwConnected := by simpa using hnotHw
  simp [connect_device, hc, hbeq, hlook, hmem, hflag]

/-- C3 witness: the amended statement evaluated on the concrete two-device
handler. -/
theorem c3_connect_other_overwrites_and_panics_witness :
    connect_device connectedHandler "BB:BB:BB:BB:BB:BB" true =
      (Outcome.panicked "connected_rx is true without device being connected, this is a bug",
       { connectedHandler with
          st := { connectedHandler.st with connected := some devB } }, []) :=
  c3_connect_other_overwrites_and_panics connectedHandler "BB:BB:BB:BB:BB:BB" true
    devA devB rfl (by decide) rfl rfl rfl

/-- C4: handling an adapter `DeviceDisconnected` event whose id matches the
tracked peripheral — regardless of whether a user requested it — clears the
tracked reference, aborts the notification listener task, empties the
listener registry, clears the cached characteristic list, invokes the
registered on-disconnect callback when present, reports `false` on the
connection-update channel when registered, and publishes `false` on the
connection-state watch channel. -/
theorem c4_disconnect_event_clears_session (h : Handler) (pid : Nat) (dev : Peripheral)
    (hc : h.st.connected = some dev) (hid : dev.pid = pid) :
    (handle_event h (CentralEvent.DeviceDisconnected pid)).1 = Outcome.ok () ∧
    (handle_event h (CentralEvent.DeviceDisconnected pid)).2.1.st.connected = none ∧
    (handle_event h (CentralEvent.DeviceDisconnected pid)).2.1.st.listenHandle = none ∧
    (handle_event h (CentralEvent.DeviceDisconnected pid)).2.1.listeners = [] ∧
    (handle_event h (CentralEvent.DeviceDisconnected pid)).2.1.st.characs = [] ∧
    (handle_event h (CentralEvent.DeviceDisconnected pid)).2.1.connectedFlag = false ∧
    (∀ hd, h.st.listenHandle = some hd →
      Effect.abortListen hd ∈ (handle_event h (CentralEvent.DeviceDisconnected pid)).2.2) ∧
    (∀ cb, h.st.onDisconnect = some cb →
      Effect.invokeDisconnectCb cb ∈
        (handle_event h (CentralEvent.DeviceDisconnected pid)).2.2) ∧
    (h.st.connectionUpdateChannel = true →
      Effect.sendConnUpdate false ∈
        (handle_event h (CentralEvent.DeviceDisconnected pid)).2.2) ∧
    Effect.sendConnectedTx false ∈
      (handle_event h (CentralEvent.DeviceDisconnected pid)).2.2 := by
  subst hid
  refine ⟨?_, ?_, ?_, ?_, ?_, ?_, ?_, ?_, ?_, ?_⟩ <;>
    simp [handle_event, handle_disconnect, hc]
  · intro hd hhd
    simp [hhd]
  · intro cb hcb
    simp [hcb]
  · intro hch
    simp [hch]

/-- C4 witness: the disconnect event for `devA` on the fully-populated
connected handler. -/
theorem c4_disconnect_event_clears_session_witness :
    (handle_event connectedHandler (CentralEvent.DeviceDisconnected 1)).1 = Outcome.ok () ∧
    (handle_event connectedHandler (CentralEvent.DeviceDisconnected 1)).2.1.st.connected
        = none ∧
    (handle_event connectedHandler (CentralEvent.DeviceDisconnected 1)).2.1.st.listenHandle
        = none ∧
    (handle_event connectedHandler (CentralEvent.DeviceDisconnected 1)).2.1.listeners = [] ∧
    (handle_event connectedHandler (CentralEvent.DeviceDisconnected 1)).2.1.st.characs
        = [] ∧
    (handle_event connectedHandler (CentralEvent.DeviceDisconnected 1)).2.1.connectedFlag
        = false ∧
    Effect.abortListen 7 ∈
      (handle_event connectedHandler (CentralEvent.DeviceDisconnected 1)).2.2 ∧
    Effect.invokeDisconnectCb 3 ∈
      (handle_event connectedHandler (CentralEvent.DeviceDisconnected 1)).2.2 ∧
    Effect.sendConnUpdate false ∈
      (handle_event connectedHandler (CentralEvent.DeviceDisconnected 1)).2.2 ∧
    Effect.sendConnectedTx false ∈
      (handle_event connectedHandler (CentralEvent.DeviceDisconnected 1)).2.2 := by
  have h := c4_disconnect_event_clears_session connectedHandler 1 devA rfl rfl
  exact ⟨h.1, h.2.1, h.2.2.1, h.2.2.2.1, h.2.2.2.2.1, h.2.2.2.2.2.1,
    h.2.2.2.2.2.2.1 7 rfl, h.2.2.2.2.2.2.2.1 3 rfl,
    h.2.2.2.2.2.2.2.2.1 rfl, h.2.2.2.2.2.2.2.2.2⟩

/-- C6 (counterexample): the claim says registering a sink via
`set_connection_update_channel` delivers the current connection-state value
to that sink immediately. On the concrete connected handler (current value
`true`) registration sends nothing at all: the effect trace of
`set_connection_update_channel` is empty, so no `sendConnUpdate` reaches the
sink. -/
theorem c6_counterexample :
    is_connected connectedHandler = true ∧
    (set_connection_update_channel connectedHandler).2 = [] :=
  ⟨rfl, rfl⟩

/-- C6 (amended): `set_connection_update_channel` only stores the sink and
delivers nothing at registration time; subsequent connection-state
transitions are delivered to the stored sink (e.g. the disconnect-event
handler sends `false` to it). The immediate delivery of the current value is
performed not by the handler but by the `connection_state` command, which
sends `is_connected()` directly to the front-end channel right after
registering the sink. -/
theorem c6_registration_stores_sink_only (h h2 : Handler) (pid : Nat)
    (dev device : Peripheral) (address : String)
    (hc : h.st.connected = some dev) (hid : dev.pid = pid)
    (h2conn : h2.st.connected = none) (h2flag : h2.connectedFlag = false)
    (h2look : registryGet h2.devices address = some device)
    (h2hw : h2.hwConnected.contains device.pid = false) :
    (set_connection_update_channel h).2 = [] ∧
    (set_connection_update_channel h).1.st.connectionUpdateChannel = true ∧
    (connection_state h).2 = [is_connected h] ∧
    Effect.sendConnUpdate false ∈
      (handle_disconnect (set_connection_update_channel h).1 pid).2.2 ∧
    Effect.sendConnUpdate true ∈
      (connect_device (set_connection_update_channel h2).1 address true).2.2 := by
  subst hid
  refine ⟨rfl, rfl, rfl, ?_, ?_⟩
  · simp [handle_disconnect, set_connection_update_channel, hc]
  · have hmem : device.pid ∉ h2.hwConnected := by simpa using h2hw
    simp [connect_device, connect_device_wait, set_connection_update_channel,
      h2conn, h2flag, h2look, hmem]

/-- C6 witness: the amended statement on the concrete connected handler
(disconnect direction) and on the freshly scanned handler connecting to
`devB` (connect direction). -/
theorem c6_registration_stores_sink_only_witness :
    (set_connection_update_channel connectedHandler).2 = [] ∧
    (set_connection_update_channel connectedHandler).1.st.connectionUpdateChannel = true ∧
    (connection_state connectedHandler).2 = [is_connected connectedHandler] ∧
    Effect.sendConnUpdate false ∈
      (handle_disconnect (set_connection_update_channel connectedHandler).1 1).2.2 ∧
    Effect.sendConnUpdate true ∈
      (connect_device (set_connection_update_channel scannedHandler).1
        "BB:BB:BB:BB:BB:BB" true).2.2 :=
  c6_registration_stores_sink_only connectedHandler scannedHandler 1 devA devB
    "BB:BB:BB:BB:BB:BB" rfl rfl rfl rfl rfl rfl

/-- C9: every tick batch produced by `add_devices` is sorted ascending under
the address-only device ordering and contains exactly the peripherals of
that tick that converted to a `BleDevice` snapshot successfully (failed
conversions are skipped without affecting the rest); and every batch the
scan loop pushes to the result sink is non-empty. -/
theorem c9_batches_sorted_exact_nonempty
    (reg : List (String × Peripheral)) (discovered : List (Peripheral × Option BleDevice))
    (t : Nat) (oracle : Nat → List (Peripheral × Option BleDevice)) :
    List.Sorted devLe (add_devices reg discovered).2 ∧
    List.Perm (add_devices reg discovered).2 (discovered.filterMap Prod.snd) ∧
    ∀ b ∈ (scan_task t oracle).2.1, b ≠ [] := by
  refine ⟨List.sorted_insertionSort devLe _, ?_, ?_⟩
  · show List.Perm (List.insertionSort devLe (add_devices_loop reg discovered).2)
      (discovered.filterMap Prod.snd)
    rw [add_devices_loop_snd discovered reg]
    exact List.perm_insertionSort devLe _
  · intro b hb
    exact runScanLoop_pushes_nonempty oracle (scanLoops t) 0 [] b hb

/-- C9 witness: one tick observing a convertible and a non-convertible
peripheral; the pushed batch of the 200 ms scan is the non-empty singleton. -/
theorem c9_batches_sorted_exact_nonempty_witness :
    List.Sorted devLe (add_devices [] [(devB, some snapB), (devA, some snapA),
      (devA, none)]).2 ∧
    List.Perm (add_devices [] [(devB, some snapB), (devA, some snapA), (devA, none)]).2
      ([(devB, some snapB), (devA, some snapA), (devA, none)].filterMap Prod.snd) ∧
    ([snapA] : List BleDevice) ≠ [] := by
  have h := c9_batches_sorted_exact_nonempty []
    [(devB, some snapB), (devA, some snapA), (devA, none)]
    200 (fun _ => [(devA, some snapA)])
  exact ⟨h.1, h.2.1, h.2.2 [snapA] (by decide)⟩

/-- C10: `Handler::subscribe` appends a listener entry only after the
peripheral's subscribe primitive succeeds. When the hardware enable fails,
the error is propagated (wrapped as a transport error) and the handler — in
particular the listener registry — is unchanged; on success the entry for
the characteristic's uuid is appended after the hardware request. -/
theorem c10_subscribe_atomic (h : Handler) (c callback code : Nat)
    (dev : Peripheral) (charac : Characteristic)
    (hc : h.st.connected = some dev) (hch : get_charac h.st.characs c = some charac) :
    subscribe h c callback (some code) =
      (Outcome.err (Error.Btleplug code), h, [Effect.hwSubscribe charac.uuid]) ∧
    subscribe h c callback none =
      (Outcome.ok (), { h with listeners := h.listeners ++ [⟨charac.uuid, callback⟩] },
       [Effect.hwSubscribe charac.uuid]) := by
  constructor <;> simp [subscribe, hc, hch]

/-- C10 witness: a failing and a succeeding hardware subscribe on the
concrete connected handler with its cached characteristic 77. -/
theorem c10_subscribe_atomic_witness :
    subscribe connectedHandler 77 9 (some 4) =
      (Outcome.err (Error.Btleplug 4), connectedHandler, [Effect.hwSubscribe 77]) ∧
    subscribe connectedHandler 77 9 none =
      (Outcome.ok (),
       { connectedHandler with
          listeners := connectedHandler.listeners ++ [⟨77, 9⟩] },
       [Effect.hwSubscribe 77]) :=
  c10_subscribe_atomic connectedHandler 77 9 4 devA ⟨77⟩ rfl rfl

end Blec
